import Mathlib

/-!
Shallow embedding of the record-mutation-with-audit core of the
digiHousing_apis backend (src/database/crud.py, src/audit_track/audit_log.py,
src/security.py, src/routes/roles_router.py) together with proofs about the
properties stated in the design specification.

Machine-level conventions of the embedding:
* Column values are modelled by `Value`: JSON scalars, a `temporal`
  constructor for Python `datetime` objects, and `pyobj` for any other
  non-JSON Python object (only its type name matters to the code).
* A database row is an association list from column names to values; a
  table is a list of rows; the audit log is a list of `AuditEntry`.
* Python exceptions are modelled by `Exc`; a FastAPI `HTTPException`
  carries its status code and detail string, and `str(exc)` is
  `excMessage`.
* Fallible code returns `Except Exc _`; functions that mutate the
  database also return the post-call committed state, so that the effect
  of a `db.commit()` that happened before a later failure stays visible
  (SQLAlchemy `rollback` cannot undo a committed transaction).
-/

/-- Python `datetime.datetime` values, as the fields that
`datetime.isoformat` renders (naive datetimes, as produced by the ORM). -/
structure Datetime where
  year : Nat
  month : Nat
  day : Nat
  hour : Nat
  minute : Nat
  second : Nat
  usec : Nat
deriving DecidableEq, Repr

/-- Field ranges of a real Python `datetime` (year 1..9999, etc.). -/
def Datetime.Valid (d : Datetime) : Prop :=
  0 < d.year ∧ d.year ≤ 9999 ∧ 1 ≤ d.month ∧ d.month ≤ 12 ∧
  1 ≤ d.day ∧ d.day ≤ 31 ∧ d.hour ≤ 23 ∧ d.minute ≤ 59 ∧
  d.second ≤ 59 ∧ d.usec ≤ 999999

instance (d : Datetime) : Decidable d.Valid := by
  unfold Datetime.Valid; infer_instance

/-- Column values flowing through the CRUD core.  The tables of
database_models.py only hold scalar columns (String, Integer, Boolean,
TIMESTAMP); `temporal` models a `datetime` object, `pyobj` any other
object that `json` cannot serialize, tagged with its type name. -/
inductive Value where
  | null : Value
  | bool : Bool → Value
  | int : Int → Value
  | str : String → Value
  | temporal : Datetime → Value
  | pyobj : String → Value
deriving DecidableEq, Repr

/-- A row / a Python dict of field values, as an association list
(insertion ordered, like a Python dict). -/
abbrev ValMap := List (String × Value)

/-- Lookup of a key in a `ValMap`. -/
def mapGet (m : ValMap) (k : String) : Option Value :=
  match m with
  | [] => none
  | (k', v) :: rest => if k' = k then some v else mapGet rest k

/-- Keys of a `ValMap`, in order. -/
def mapKeys (m : ValMap) : List String := m.map Prod.fst

/-- Whether `json.dumps` (without a `default` hook) accepts the value:
true exactly for the JSON scalars. -/
def jsonOk : Value → Bool
  | .temporal _ => false
  | .pyobj _ => false
  | _ => true

/-- Whether `json.dumps` without a `default` hook accepts a dict. -/
def mapJsonOk (m : ValMap) : Bool := m.all (fun p => jsonOk p.snd)

/-- Python type name used in a json `TypeError` message. -/
def pyTypeName : Value → String
  | .temporal _ => "datetime"
  | .pyobj ty => ty
  | .null => "NoneType"
  | .bool _ => "bool"
  | .int _ => "int"
  | .str _ => "str"

/-- Char of a decimal digit, as Python renders it. -/
def digitChar (n : Nat) : Char := Nat.digitChar n

/-- Two-digit zero-padded decimal rendering (for n < 100). -/
def pad2 (n : Nat) : List Char :=
  [digitChar (n / 10 % 10), digitChar (n % 10)]

/-- Four-digit zero-padded decimal rendering (for n < 10000). -/
def pad4 (n : Nat) : List Char :=
  [digitChar (n / 1000 % 10), digitChar (n / 100 % 10),
   digitChar (n / 10 % 10), digitChar (n % 10)]

/-- Six-digit zero-padded decimal rendering (for n < 1000000). -/
def pad6 (n : Nat) : List Char :=
  [digitChar (n / 100000 % 10), digitChar (n / 10000 % 10),
   digitChar (n / 1000 % 10), digitChar (n / 100 % 10),
   digitChar (n / 10 % 10), digitChar (n % 10)]

/-- Python `datetime.isoformat()`: `YYYY-MM-DDTHH:MM:SS` with a
`.ffffff` microsecond suffix exactly when the microsecond field is
non-zero. -/
def Datetime.isofmt (d : Datetime) : String :=
  String.mk (pad4 d.year ++ '-' :: pad2 d.month ++ '-' :: pad2 d.day ++
    'T' :: pad2 d.hour ++ ':' :: pad2 d.minute ++ ':' :: pad2 d.second ++
    (if d.usec = 0 then [] else '.' :: pad6 d.usec))

/-- Numeric value of a decimal digit character, if it is one. -/
def digitVal (c : Char) : Option Nat :=
  if c.isDigit then some (c.toNat - 48) else none

/-- Parse two decimal digit characters. -/
def parse2 (a b : Char) : Option Nat := do
  let x ← digitVal a
  let y ← digitVal b
  pure (10 * x + y)

/-- Parse four decimal digit characters. -/
def parse4 (a b c e : Char) : Option Nat := do
  let x ← digitVal a
  let y ← digitVal b
  let z ← digitVal c
  let w ← digitVal e
  pure (1000 * x + 100 * y + 10 * z + w)

/-- Parse six decimal digit characters. -/
def parse6 (a b c e f g : Char) : Option Nat := do
  let x ← digitVal a
  let y ← digitVal b
  let z ← digitVal c
  let u ← digitVal e
  let v ← digitVal f
  let w ← digitVal g
  pure (100000 * x + 10000 * y + 1000 * z + 100 * u + 10 * v + w)

/-- Parse an ISO-8601 naive datetime string of the two shapes
`datetime.isoformat` produces (with and without microseconds), as
`datetime.fromisoformat` accepts them. -/
def parseIso (s : String) : Option Datetime :=
  match s.data with
  | [y1, y2, y3, y4, '-', a1, a2, '-', b1, b2, 'T',
     c1, c2, ':', e1, e2, ':', f1, f2] => do
      let y ← parse4 y1 y2 y3 y4
      let mo ← parse2 a1 a2
      let dd ← parse2 b1 b2
      let hh ← parse2 c1 c2
      let mi ← parse2 e1 e2
      let ss ← parse2 f1 f2
      pure ⟨y, mo, dd, hh, mi, ss, 0⟩
  | [y1, y2, y3, y4, '-', a1, a2, '-', b1, b2, 'T',
     c1, c2, ':', e1, e2, ':', f1, f2, '.', u1, u2, u3, u4, u5, u6] => do
      let y ← parse4 y1 y2 y3 y4
      let mo ← parse2 a1 a2
      let dd ← parse2 b1 b2
      let hh ← parse2 c1 c2
      let mi ← parse2 e1 e2
      let ss ← parse2 f1 f2
      let us ← parse6 u1 u2 u3 u4 u5 u6
      pure ⟨y, mo, dd, hh, mi, ss, us⟩
  | _ => none

/-- Serialization Adapter of crud.py: the effect of
`json.loads(json.dumps(v, default=json_serial))` on a single value.
`json_serial` (crud.py lines 47-51) renders a `datetime` as
`obj.isoformat()` and raises `TypeError` on any other non-JSON object. -/
def canonicalize : Value → Except String Value
  | .temporal d => .ok (.str d.isofmt)
  | .pyobj ty => .error ("Type " ++ ty ++ " is not serializable")
  | v => .ok v

/-- Serialization Adapter applied to a whole dict of field values, the
effect of `json.loads(json.dumps(m, default=json_serial))`. -/
def canonicalizeMap : ValMap → Except String ValMap
  | [] => .ok []
  | (k, v) :: rest =>
    match canonicalize v with
    | .error e => .error e
    | .ok v' =>
      match canonicalizeMap rest with
      | .error e => .error e
      | .ok rest' => .ok ((k, v') :: rest')

/-- Decidable equality for `Except` results, used to evaluate the
embedding at concrete inputs. -/
instance {E A : Type} [DecidableEq E] [DecidableEq A] :
    DecidableEq (Except E A) := fun x y =>
  match x, y with
  | .ok a, .ok b =>
    if h : a = b then isTrue (by rw [h])
    else isFalse (by intro hc; cases hc; exact h rfl)
  | .error a, .error b =>
    if h : a = b then isTrue (by rw [h])
    else isFalse (by intro hc; cases hc; exact h rfl)
  | .ok _, .error _ => isFalse (by intro hc; cases hc)
  | .error _, .ok _ => isFalse (by intro hc; cases hc)

/-- Python exceptions observable in the core.  `http` is a FastAPI
`HTTPException` (status code, detail); `typeError` a json/argument
`TypeError`; `attributeError` an access on `None`; `dbError` a
SQLAlchemy error (failed query construction, MultipleResultsFound). -/
inductive Exc where
  | http : Nat → String → Exc
  | typeError : String → Exc
  | attributeError : String → Exc
  | dbError : String → Exc
deriving DecidableEq, Repr

/-- Python `str(exc)`.  Starlette renders an `HTTPException` as
`"{status_code}: {detail}"` (braces here describe the format only). -/
def excMessage : Exc → String
  | .http s d => toString s ++ ": " ++ d
  | .typeError m => m
  | .attributeError m => m
  | .dbError m => m

/-- HTTP status of the response the application produces for an
exception that escapes a route handler, per the handlers registered in
main.py lines 89-92: an `HTTPException` keeps its status code
(http_exception_handler), a SQLAlchemy error maps to 500
(sqlalchemy_exception_handler) and every other exception maps to 500
(generic_exception_handler). -/
def toHttpStatus : Exc → Nat
  | .http s _ => s
  | .typeError _ => 500
  | .attributeError _ => 500
  | .dbError _ => 500

/-- Status code of a call result, if it failed. -/
def resultStatus {α : Type} : Except Exc α → Option Nat
  | .ok _ => none
  | .error e => some (toHttpStatus e)

/-- Record-shape descriptor of one SQLAlchemy model class: its Python
class name, `__tablename__`, the `__table__.columns` names, the
relationship attributes and plain-method attributes declared on the
class (together with the columns these are what `hasattr(model, ·)`
sees), the columns declared `nullable=False` without a default, and
the columns declared `unique=True`. -/
structure Shape where
  modelName : String
  tableName : String
  columns : List String
  relationships : List String
  methods : List String
  notNull : List String
  uniqueCols : List String
deriving DecidableEq, Repr

/-- Python attribute names of the model class: what
`hasattr(model, attr)` admits in fetch_record's guard. -/
def Shape.pythonAttrs (s : Shape) : List String :=
  s.columns ++ s.relationships ++ s.methods

/-- RolesDbModel (database_models.py lines 15-22): five columns, the
`users` relationship, no method attributes, every column nullable or
defaulted, `name` unique. -/
def rolesShape : Shape :=
  { modelName := "RolesDbModel"
    tableName := "roles"
    columns := ["id", "name", "description", "created_at", "updated_at"]
    relationships := ["users"]
    methods := []
    notNull := []
    uniqueCols := ["name"] }

/-- AmenitiesDbModel (database_models.py lines 114-130): six columns,
the `user` relationship, the `to_dict` method, `created_by_user`
declared `nullable=False` with no default (line 119), `name` unique. -/
def amenitiesShape : Shape :=
  { modelName := "AmenitiesDbModel"
    tableName := "amenities"
    columns := ["id", "name", "description", "created_by_user",
                "created_at", "updated_at"]
    relationships := ["user"]
    methods := ["to_dict"]
    notNull := ["created_by_user"]
    uniqueCols := ["name"] }

/-- Value of `record.id`, the integer primary key of a row. -/
def rowId (r : ValMap) : Int :=
  match mapGet r "id" with
  | some (.int n) => n
  | _ => 0

/-- Python `getattr(record, c)` for a column name: a column unset on the
object reads as `None`. -/
def rowGet (r : ValMap) (c : String) : Value :=
  (mapGet r c).getD .null

/-- Snapshot taken by update_record/delete_record (crud.py lines 75 and
121): a dict over every column of `record.__table__.columns` in order. -/
def snapshot (shape : Shape) (r : ValMap) : ValMap :=
  shape.columns.map (fun c => (c, rowGet r c))

/-- Set one field of a row (`setattr` on a mapped column followed by
commit): replaces the stored value of that column. -/
def assocSet (r : ValMap) (k : String) (v : Value) : ValMap :=
  match r with
  | [] => [(k, v)]
  | (k', v') :: rest =>
    if k' = k then (k, v) :: rest else (k', v') :: assocSet rest k v

/-- Apply the `for key, value in data.items(): setattr(record, key, value)`
loop of update_record (crud.py lines 78-79) as it is visible after
commit: setting a mapped column updates the row, while `setattr` with a
name that is not a column only creates a transient Python attribute
that the commit does not persist. -/
def applyData (shape : Shape) (r : ValMap) (data : ValMap) : ValMap :=
  data.foldl (fun acc p =>
    if shape.columns.contains p.fst then assocSet acc p.fst p.snd else acc) r

/-- One row of the audit_logs table (database_models.py lines 164-172).
`old_values`/`new_values` are stored as the JSON text of a dict; the
embedding keeps the parsed dict. -/
structure AuditEntry where
  table_name : String
  record_id : Int
  changed_by : Nat
  old_values : ValMap
  new_values : ValMap
deriving DecidableEq, Repr

/-- First value of a dict rejected by `json.dumps` without a `default`
hook, if any. -/
def firstNonJson (m : ValMap) : Option Value :=
  match m with
  | [] => none
  | (_, v) :: rest => if jsonOk v then firstNonJson rest else some v

/-- add_audit_log (audit_log.py lines 5-14): builds an AuditLogsDbModel
row with `json.dumps(old_values)` and `json.dumps(new_values)` — with no
`default` hook, so a non-JSON value (e.g. a datetime) raises
`TypeError` — then commits it.  On success the entry is appended to the
audit table. -/
def add_audit_log (audits : List AuditEntry) (table_name : String)
    (record_id : Int) (changed_by : Nat) (old_values new_values : ValMap) :
    Except Exc (List AuditEntry) :=
  match firstNonJson old_values with
  | some v => .error (.typeError
      ("Object of type " ++ pyTypeName v ++ " is not JSON serializable"))
  | none =>
    match firstNonJson new_values with
    | some v => .error (.typeError
        ("Object of type " ++ pyTypeName v ++ " is not JSON serializable"))
    | none => .ok (audits ++
        [⟨table_name, record_id, changed_by, old_values, new_values⟩])

/-- Constraint enforcement the database applies at `db.commit()` of an
insert: a column declared `nullable=False` without a default must carry
a non-null value, and a `unique=True` column must not repeat a non-null
value already present in the table (SQL UNIQUE admits multiple NULLs).
A violation raises IntegrityError, named here by the failing
constraint. -/
def integrityViolation (shape : Shape) (rows : List ValMap)
    (r : ValMap) : Option String :=
  match shape.notNull.find? (fun c => rowGet r c == Value.null) with
  | some c => some ("NOT NULL constraint failed: " ++
      shape.tableName ++ "." ++ c)
  | none =>
    match shape.uniqueCols.find? (fun c =>
        !(rowGet r c == Value.null) &&
        rows.any (fun x => rowGet x c == rowGet r c)) with
    | some c => some ("UNIQUE constraint failed: " ++
        shape.tableName ++ "." ++ c)
    | none => none

/-- create_record (crud.py lines 11-45).  `model(**data)` builds the new
row and `db.add`/`db.commit` makes it durable — unless the commit
itself raises IntegrityError on a constraint violation, in which case
the blanket `except` rolls the uncommitted insert back (table
unchanged) and re-raises a 500.  After a successful commit
add_audit_log is called (which commits separately); a failure inside it
is caught by the same blanket `except`, whose `db.rollback()` cannot
undo the already committed insert, and is re-raised as an HTTPException
500 wrapping the message.  `newId` is the primary key the database
assigns at commit.  Returns (result, rows, audits) in the committed
post-call state. -/
def create_record (shape : Shape) (rows : List ValMap)
    (audits : List AuditEntry) (data : ValMap) (current_user_id : Nat)
    (newId : Nat) : Except Exc ValMap × List ValMap × List AuditEntry :=
  let newRow : ValMap := ("id", .int newId) :: data
  match integrityViolation shape rows newRow with
  | some msg =>
      (.error (.http 500 ("Error creating record: " ++
        excMessage (.dbError msg))), rows, audits)
  | none =>
    let rows1 := rows ++ [newRow]
    match add_audit_log audits shape.tableName newId current_user_id [] data with
    | .ok audits1 => (.ok newRow, rows1, audits1)
    | .error e =>
        (.error (.http 500 ("Error creating record: " ++ excMessage e)),
         rows1, audits)

/-- update_record (crud.py lines 53-98).  Finds the row by id; raising
the 404 happens inside the `try`, so the blanket `except Exception`
catches it and re-raises it as a 500 whose detail wraps `str(e)`.  On
the found path: full-column snapshot, serialize it via the adapter,
apply the fields, commit, serialize the literal `data` via the adapter,
then add_audit_log.  State returned is the committed state. -/
def update_record (shape : Shape) (rows : List ValMap)
    (audits : List AuditEntry) (record_id : Int) (data : ValMap)
    (current_user_id : Nat) :
    Except Exc ValMap × List ValMap × List AuditEntry :=
  match rows.find? (fun r => rowId r == record_id) with
  | none =>
      (.error (.http 500 ("Error updating record: " ++
        excMessage (.http 404 (shape.modelName ++ " not found")))),
       rows, audits)
  | some r =>
    match canonicalizeMap (snapshot shape r) with
    | .error m =>
        (.error (.http 500 ("Error updating record: " ++ m)), rows, audits)
    | .ok oldSer =>
      let r' := applyData shape r data
      let rows1 := rows.map (fun x => if rowId x == record_id then r' else x)
      match canonicalizeMap data with
      | .error m =>
          (.error (.http 500 ("Error updating record: " ++ m)), rows1, audits)
      | .ok newSer =>
        match add_audit_log audits shape.tableName record_id
            current_user_id oldSer newSer with
        | .ok audits1 => (.ok r', rows1, audits1)
        | .error e =>
            (.error (.http 500 ("Error updating record: " ++ excMessage e)),
             rows1, audits)

/-- delete_record (crud.py lines 100-139).  Same exception structure as
update_record: the 404 for a missing id is swallowed by the blanket
`except` and re-raised as a 500; on the found path the full snapshot is
serialized, the row is deleted and committed, then add_audit_log runs
with `new_values = {}` (empty dict). -/
def delete_record (shape : Shape) (rows : List ValMap)
    (audits : List AuditEntry) (record_id : Int) (current_user_id : Nat) :
    Except Exc String × List ValMap × List AuditEntry :=
  match rows.find? (fun r => rowId r == record_id) with
  | none =>
      (.error (.http 500 ("Error deleting record: " ++
        excMessage (.http 404 (shape.modelName ++ " not found")))),
       rows, audits)
  | some r =>
    match canonicalizeMap (snapshot shape r) with
    | .error m =>
        (.error (.http 500 ("Error deleting record: " ++ m)), rows, audits)
    | .ok oldSer =>
      let rows1 := rows.filter (fun x => !(rowId x == record_id))
      match add_audit_log audits shape.tableName record_id
          current_user_id oldSer [] with
      | .ok audits1 => (.ok "record deleted successfully", rows1, audits1)
      | .error e =>
          (.error (.http 500 ("Error deleting record: " ++ excMessage e)),
           rows1, audits)

/-- fetch_all_records (crud.py lines 141-152): every row, unfiltered. -/
def fetch_all_records (rows : List ValMap) : List ValMap := rows

/-- Filter loop of fetch_record (crud.py lines 172-177): for each
`(attr, value)` pair, `hasattr(model, attr)` admits any Python
attribute of the class (column, relationship or method); a column
attribute contributes an equality filter; a relationship attribute
makes `getattr(model, attr) == value` raise at criterion construction
(a collection comparison error for one-to-many such as
RolesDbModel.users, a mapped-instance-expected error for many-to-one —
modelled uniformly by one SQLAlchemy error), a non-HTTP exception; a
plain method attribute makes `getattr(model, attr) == value` the
constant `False`, which SQLAlchemy coerces to a WHERE-false clause, so
the query keeps matching zero rows and the loop continues; a name that
is no attribute at all raises the 400. -/
def applyFilters (shape : Shape) (rows : List ValMap) (filters : ValMap) :
    Except Exc (List ValMap) :=
  match filters with
  | [] => .ok rows
  | (attr, v) :: rest =>
    if shape.columns.contains attr then
      applyFilters shape (rows.filter (fun r => rowGet r attr == v)) rest
    else if shape.relationships.contains attr then
      .error (.dbError
        ("Cannot compare a collection to an object or collection: " ++ attr))
    else if shape.methods.contains attr then
      applyFilters shape (rows.filter (fun _ => false)) rest
    else
      .error (.http 400 ("Invalid filter parameter: " ++ attr))

/-- fetch_record (crud.py lines 156-190).  Applies the filter loop,
then: zero matches raise 404, two or more raise 300, exactly one is
returned.  `except HTTPException` re-raises HTTP errors unchanged; any
other exception is wrapped into a 500. -/
def fetch_record (shape : Shape) (rows : List ValMap) (filters : ValMap) :
    Except Exc ValMap :=
  match applyFilters shape rows filters with
  | .error (.http s d) => .error (.http s d)
  | .error e => .error (.http 500 ("Error fetching record: " ++ excMessage e))
  | .ok matched =>
    match matched with
    | [] => .error (.http 404 "Record not found")
    | [r] => .ok r
    | _ :: _ :: _ => .error (.http 300 "Multiple records found")

/-- One row of the roles table (database_models.py lines 15-22), as the
Authorization Gate reads it. -/
structure RoleRow where
  id : Nat
  name : String
deriving DecidableEq, Repr

/-- One row of the users table (database_models.py lines 25-39), as the
Authorization Gate reads it. -/
structure UserRow where
  id : Nat
  email_id : String
  role_id : Nat
deriving DecidableEq, Repr

/-- SQLAlchemy `Query.one_or_none()` over the rows a filter selected:
`None` for zero rows, the row for exactly one, and a
MultipleResultsFound error for two or more. -/
def one_or_none {α : Type} (found : List α) : Except Exc (Option α) :=
  match found with
  | [] => .ok none
  | [x] => .ok (some x)
  | _ :: _ :: _ => .error (.dbError
      "Multiple rows were found when one or none was required")

/-- get_role_ids (security.py lines 28-56): resolves the ids of the
three well-known roles by name, raising HTTPException 500 naming the
missing role when any lookup returns no row. -/
def get_role_ids (roles : List RoleRow) : Except Exc (Nat × Nat × Nat) :=
  match one_or_none (roles.filter (fun r => r.name == "admin")) with
  | .error e => .error e
  | .ok none => .error (.http 500 "Admin role not found in the database")
  | .ok (some adminRole) =>
    match one_or_none (roles.filter (fun r => r.name == "superAdmin")) with
    | .error e => .error e
    | .ok none =>
        .error (.http 500 "Super Admin role not found in the database")
    | .ok (some superAdminRole) =>
      match one_or_none (roles.filter (fun r => r.name == "endUser")) with
      | .error e => .error e
      | .ok none =>
          .error (.http 500 "End User role not found in the database")
      | .ok (some endUserRole) =>
          .ok (adminRole.id, superAdminRole.id, endUserRole.id)

/-- credentials_exception (security.py lines 59-63). -/
def credentials_exception : Exc :=
  .http 401 "Could not validate credentials"

/-- token_expired_exception (security.py lines 65-69). -/
def token_expired_exception : Exc :=
  .http 401 "Token has expired"

/-- Bearer token as the credential verifier sees it: whether its
signature verifies, whether its expiry has passed, and its `sub`
claim. -/
structure Token where
  sigValid : Bool
  expired : Bool
  sub : Option String
deriving DecidableEq, Repr

/-- Outcome of `jose.jwt.decode`: the payload when the signature is
valid and the token unexpired, `ExpiredSignatureError` when the
signature is valid but the `exp` claim is in the past, and a plain
`JWTError` when the signature is invalid or the token malformed. -/
inductive JwtOutcome where
  | payload : Option String → JwtOutcome
  | expiredSignature : JwtOutcome
  | jwtError : JwtOutcome
deriving DecidableEq, Repr

/-- jwt.decode as used in security.py line 122. -/
def jwtDecode (t : Token) : JwtOutcome :=
  if !t.sigValid then .jwtError
  else if t.expired then .expiredSignature
  else .payload t.sub

/-- get_current_user_from_token (security.py lines 117-135): resolve a
credential to a user identity.  `except ExpiredSignatureError` maps to
token_expired_exception, `except JWTError` to credentials_exception; a
missing `sub` claim or an unknown subject raises
credentials_exception.  get_user (line 102) uses `.first()`. -/
def get_current_user_from_token (t : Token) (users : List UserRow) :
    Except Exc (String × Nat) :=
  match jwtDecode t with
  | .expiredSignature => .error token_expired_exception
  | .jwtError => .error credentials_exception
  | .payload none => .error credentials_exception
  | .payload (some email) =>
    match users.find? (fun u => u.email_id == email) with
    | none => .error credentials_exception
    | some u => .ok (u.email_id, u.id)

/-- super_admin_required (security.py lines 138-159): looks up the
superAdmin role and the caller, then compares
`user_in_db.role_id != super_admin_role.id`.  Either lookup returning
`None` makes that attribute access raise AttributeError (evaluation is
left to right, so a missing user fails first). -/
def super_admin_required (roles : List RoleRow) (users : List UserRow)
    (current_user_id : Nat) : Except Exc Nat :=
  match one_or_none (roles.filter (fun r => r.name == "superAdmin")) with
  | .error e => .error e
  | .ok superOpt =>
    match one_or_none (users.filter (fun u => u.id == current_user_id)) with
    | .error e => .error e
    | .ok none => .error (.attributeError
        "NoneType object has no attribute role_id")
    | .ok (some u) =>
      match superOpt with
      | none => .error (.attributeError "NoneType object has no attribute id")
      | some superAdminRole =>
        if u.role_id ≠ superAdminRole.id then
          .error (.http 403 "Forbidden - Super Admin access required.")
        else
          .ok current_user_id

/-- super_admin_or_admin_required (security.py lines 185-196): resolves
the three well-known role ids through get_role_ids, re-queries the
caller, admits when the live `role_id` is the admin or superAdmin id,
and raises 403 otherwise.  A missing user makes `user_in_db.role_id`
raise AttributeError. -/
def super_admin_or_admin_required (roles : List RoleRow)
    (users : List UserRow) (current_user_id : Nat) : Except Exc Nat :=
  match get_role_ids roles with
  | .error e => .error e
  | .ok ids =>
    match one_or_none (users.filter (fun u => u.id == current_user_id)) with
    | .error e => .error e
    | .ok none => .error (.attributeError
        "NoneType object has no attribute role_id")
    | .ok (some u) =>
      if u.role_id = ids.fst ∨ u.role_id = ids.snd.fst then
        .ok current_user_id
      else
        .error (.http 403 "Access denied.")

/-- is_super_admin (security.py lines 225-243): same lookups as
super_admin_required, but returns `True`/`False` instead of raising a
403. -/
def is_super_admin (roles : List RoleRow) (users : List UserRow)
    (current_user_id : Nat) : Except Exc Bool :=
  match one_or_none (roles.filter (fun r => r.name == "superAdmin")) with
  | .error e => .error e
  | .ok superOpt =>
    match one_or_none (users.filter (fun u => u.id == current_user_id)) with
    | .error e => .error e
    | .ok none => .error (.attributeError
        "NoneType object has no attribute role_id")
    | .ok (some u) =>
      match superOpt with
      | none => .error (.attributeError "NoneType object has no attribute id")
      | some superAdminRole =>
        if u.role_id = superAdminRole.id then .ok true else .ok false

/-- delete_role endpoint (roles_router.py lines 97-114).  Its guard is
`dependencies=[Depends(is_super_admin)]`: FastAPI runs is_super_admin
and discards its boolean result, so only an exception blocks the
request.  The handler then looks the role up (404 when absent) and
calls `delete_record(db=db_session, model=RolesDbModel,
record_id=role_id)` — without the required `current_user_id` argument,
which raises `TypeError` before delete_record's body runs.  Returns the
result and the (unchanged) roles table. -/
def delete_role (roles : List RoleRow) (users : List UserRow)
    (caller_id : Nat) (role_id : Nat) : Except Exc String × List RoleRow :=
  match is_super_admin roles users caller_id with
  | .error e => (.error e, roles)
  | .ok _ =>
    match one_or_none (roles.filter (fun r => r.id == role_id)) with
    | .error e => (.error e, roles)
    | .ok none => (.error (.http 404 "Role not found"), roles)
    | .ok (some _) =>
        (.error (.typeError
          "delete_record() missing 1 required positional argument: current_user_id"),
         roles)

/-- AND-conjunction equality match over rows: the set of rows that
satisfy every filter pair.  The lemma `applyFilters_columns` below
proves this equal to the sequential filtering fetch_record performs
when every filter key names a column. -/
def matchedRows (rows : List ValMap) (filters : ValMap) : List ValMap :=
  rows.filter (fun r => filters.all (fun p => rowGet r p.fst == p.snd))

theorem digitVal_digitChar (m : Nat) (h : m < 10) :
    digitVal (digitChar m) = some m := by
  interval_cases m <;> rfl

theorem parse2_pad (n : Nat) (h : n < 100) :
    parse2 (digitChar (n / 10 % 10)) (digitChar (n % 10)) = some n := by
  have h1 : n / 10 % 10 < 10 := Nat.mod_lt _ (by norm_num)
  have h2 : n % 10 < 10 := Nat.mod_lt _ (by norm_num)
  simp [parse2, digitVal_digitChar _ h1, digitVal_digitChar _ h2]
  omega

theorem parse4_pad (n : Nat) (h : n < 10000) :
    parse4 (digitChar (n / 1000 % 10)) (digitChar (n / 100 % 10))
      (digitChar (n / 10 % 10)) (digitChar (n % 10)) = some n := by
  have h1 : n / 1000 % 10 < 10 := Nat.mod_lt _ (by norm_num)
  have h2 : n / 100 % 10 < 10 := Nat.mod_lt _ (by norm_num)
  have h3 : n / 10 % 10 < 10 := Nat.mod_lt _ (by norm_num)
  have h4 : n % 10 < 10 := Nat.mod_lt _ (by norm_num)
  simp [parse4, digitVal_digitChar _ h1, digitVal_digitChar _ h2,
    digitVal_digitChar _ h3, digitVal_digitChar _ h4]
  omega

theorem parse6_pad (n : Nat) (h : n < 1000000) :
    parse6 (digitChar (n / 100000 % 10)) (digitChar (n / 10000 % 10))
      (digitChar (n / 1000 % 10)) (digitChar (n / 100 % 10))
      (digitChar (n / 10 % 10)) (digitChar (n % 10)) = some n := by
  have h1 : n / 100000 % 10 < 10 := Nat.mod_lt _ (by norm_num)
  have h2 : n / 10000 % 10 < 10 := Nat.mod_lt _ (by norm_num)
  have h3 : n / 1000 % 10 < 10 := Nat.mod_lt _ (by norm_num)
  have h4 : n / 100 % 10 < 10 := Nat.mod_lt _ (by norm_num)
  have h5 : n / 10 % 10 < 10 := Nat.mod_lt _ (by norm_num)
  have h6 : n % 10 < 10 := Nat.mod_lt _ (by norm_num)
  simp [parse6, digitVal_digitChar _ h1, digitVal_digitChar _ h2,
    digitVal_digitChar _ h3, digitVal_digitChar _ h4,
    digitVal_digitChar _ h5, digitVal_digitChar _ h6]
  omega

theorem parseIso_isofmt (d : Datetime) (h : d.Valid) :
    parseIso d.isofmt = some d := by
  obtain ⟨hy0, hy, hm1, hm, hd1, hd, hh, hmi, hs, hu⟩ := h
  by_cases hz : d.usec = 0
  · have : d.isofmt.data =
      [digitChar (d.year / 1000 % 10), digitChar (d.year / 100 % 10),
       digitChar (d.year / 10 % 10), digitChar (d.year % 10), '-',
       digitChar (d.month / 10 % 10), digitChar (d.month % 10), '-',
       digitChar (d.day / 10 % 10), digitChar (d.day % 10), 'T',
       digitChar (d.hour / 10 % 10), digitChar (d.hour % 10), ':',
       digitChar (d.minute / 10 % 10), digitChar (d.minute % 10), ':',
       digitChar (d.second / 10 % 10), digitChar (d.second % 10)] := by
      simp [Datetime.isofmt, pad4, pad2, hz]
    rw [parseIso, this]
    simp only [parse4_pad _ (show d.year < 10000 by omega),
      parse2_pad _ (show d.month < 100 by omega),
      parse2_pad _ (show d.day < 100 by omega),
      parse2_pad _ (show d.hour < 100 by omega),
      parse2_pad _ (show d.minute < 100 by omega),
      parse2_pad _ (show d.second < 100 by omega)]
    simp only [Option.pure_def, Option.bind_eq_bind, Option.some_bind]
    rw [← hz]
  · have : d.isofmt.data =
      [digitChar (d.year / 1000 % 10), digitChar (d.year / 100 % 10),
       digitChar (d.year / 10 % 10), digitChar (d.year % 10), '-',
       digitChar (d.month / 10 % 10), digitChar (d.month % 10), '-',
       digitChar (d.day / 10 % 10), digitChar (d.day % 10), 'T',
       digitChar (d.hour / 10 % 10), digitChar (d.hour % 10), ':',
       digitChar (d.minute / 10 % 10), digitChar (d.minute % 10), ':',
       digitChar (d.second / 10 % 10), digitChar (d.second % 10), '.',
       digitChar (d.usec / 100000 % 10), digitChar (d.usec / 10000 % 10),
       digitChar (d.usec / 1000 % 10), digitChar (d.usec / 100 % 10),
       digitChar (d.usec / 10 % 10), digitChar (d.usec % 10)] := by
      simp [Datetime.isofmt, pad4, pad2, pad6, hz]
    rw [parseIso, this]
    simp only [parse4_pad _ (show d.year < 10000 by omega),
      parse2_pad _ (show d.month < 100 by omega),
      parse2_pad _ (show d.day < 100 by omega),
      parse2_pad _ (show d.hour < 100 by omega),
      parse2_pad _ (show d.minute < 100 by omega),
      parse2_pad _ (show d.second < 100 by omega),
      parse6_pad _ (show d.usec < 1000000 by omega)]
    simp only [Option.pure_def, Option.bind_eq_bind, Option.some_bind]

theorem canonicalize_jsonOk_id (v : Value) (h : jsonOk v = true) :
    canonicalize v = .ok v := by
  cases v <;> simp_all [canonicalize, jsonOk]

theorem canonicalizeMap_jsonOk_id (m : ValMap) (h : mapJsonOk m = true) :
    canonicalizeMap m = .ok m := by
  induction m with
  | nil => rfl
  | cons p rest ih =>
    obtain ⟨k, v⟩ := p
    simp only [mapJsonOk, List.all_cons, Bool.and_eq_true] at h
    simp [canonicalizeMap, canonicalize_jsonOk_id v h.1,
      ih (by simpa [mapJsonOk] using h.2)]

theorem canonicalize_ok_jsonOk (v v' : Value) (h : canonicalize v = .ok v') :
    jsonOk v' = true := by
  cases v <;> simp_all [canonicalize, jsonOk] <;> subst h <;> rfl

theorem canonicalizeMap_ok_firstNonJson (m m' : ValMap)
    (h : canonicalizeMap m = .ok m') : firstNonJson m' = none := by
  induction m generalizing m' with
  | nil =>
    simp only [canonicalizeMap] at h
    cases h
    rfl
  | cons p rest ih =>
    obtain ⟨k, v⟩ := p
    simp only [canonicalizeMap] at h
    cases hv : canonicalize v with
    | error e => rw [hv] at h; cases h
    | ok v' =>
      rw [hv] at h
      cases hrest : canonicalizeMap rest with
      | error e => rw [hrest] at h; cases h
      | ok rest' =>
        rw [hrest] at h
        cases h
        simp [firstNonJson, canonicalize_ok_jsonOk v v' hv, ih rest' hrest]

theorem canonicalizeMap_ok_keys (m m' : ValMap)
    (h : canonicalizeMap m = .ok m') : mapKeys m' = mapKeys m := by
  induction m generalizing m' with
  | nil =>
    simp only [canonicalizeMap] at h
    cases h
    rfl
  | cons p rest ih =>
    obtain ⟨k, v⟩ := p
    simp only [canonicalizeMap] at h
    cases hv : canonicalize v with
    | error e => rw [hv] at h; cases h
    | ok v' =>
      rw [hv] at h
      cases hrest : canonicalizeMap rest with
      | error e => rw [hrest] at h; cases h
      | ok rest' =>
        rw [hrest] at h
        cases h
        simpa [mapKeys] using ih rest' hrest

theorem snapshot_keys (shape : Shape) (r : ValMap) :
    mapKeys (snapshot shape r) = shape.columns := by
  simp [mapKeys, snapshot, List.map_map]
  exact List.map_id _

/-- Claim C9: canonicalizing a temporal value renders it as an
ISO-8601 string whose re-parse yields an instant equal to the original
datetime, and canonicalizing any already-JSON value (scalar or mapping
of scalars) is the identity transform. -/
theorem serialization_round_trip_and_identity :
    (∀ d : Datetime, d.Valid →
      canonicalize (.temporal d) = .ok (.str d.isofmt) ∧
      parseIso d.isofmt = some d) ∧
    (∀ v : Value, jsonOk v = true → canonicalize v = .ok v) ∧
    (∀ m : ValMap, mapJsonOk m = true → canonicalizeMap m = .ok m) :=
  ⟨fun d h => ⟨rfl, parseIso_isofmt d h⟩,
   canonicalize_jsonOk_id,
   canonicalizeMap_jsonOk_id⟩

/-- Witness for C9 at a concrete datetime and concrete JSON values. -/
theorem serialization_round_trip_and_identity_witness :
    Datetime.Valid ⟨2024, 5, 17, 10, 30, 0, 0⟩ ∧
    parseIso (Datetime.isofmt ⟨2024, 5, 17, 10, 30, 0, 0⟩) =
      some ⟨2024, 5, 17, 10, 30, 0, 0⟩ ∧
    canonicalize (.str "Pool") = .ok (.str "Pool") ∧
    canonicalizeMap [("name", .str "Pool"), ("flag", .bool true)] =
      .ok [("name", .str "Pool"), ("flag", .bool true)] :=
  ⟨by decide,
   (serialization_round_trip_and_identity.1 ⟨2024, 5, 17, 10, 30, 0, 0⟩
     (by decide)).2,
   serialization_round_trip_and_identity.2.1 _ (by decide),
   serialization_round_trip_and_identity.2.2 _ (by decide)⟩

/-- Claim C1: evaluation of create_record at a failing attempt that is
constraint-clean (a roles create: no NOT NULL column, no unique
collision, so `db.commit()` at crud.py line 30 succeeds and the row is
durable).  add_audit_log then fails (`json.dumps` with no `default`
hook on the datetime inside the raw `data`, audit_log.py line 11) and
the blanket `except` re-raises a 500 after a rollback that cannot undo
the committed insert: the attempt fails, yet the record table has
gained the row and zero audit entries exist — the mutation and the
audit append did not commit or roll back together.  By contrast, a
commit-time IntegrityError (an amenities create missing the
NOT NULL `created_by_user`) is rolled back before any row persists:
only the post-commit audit failure breaks atomicity. -/
theorem create_audit_failure_leaves_row_committed :
    resultStatus (create_record rolesShape [] []
      [("name", .str "Pool"),
       ("created_at", .temporal ⟨2024, 1, 2, 3, 4, 5, 0⟩)] 7 1).1 =
      some 500 ∧
    (create_record rolesShape [] []
      [("name", .str "Pool"),
       ("created_at", .temporal ⟨2024, 1, 2, 3, 4, 5, 0⟩)] 7 1).2.1 =
      [[("id", .int 1), ("name", .str "Pool"),
        ("created_at", .temporal ⟨2024, 1, 2, 3, 4, 5, 0⟩)]] ∧
    (create_record rolesShape [] []
      [("name", .str "Pool"),
       ("created_at", .temporal ⟨2024, 1, 2, 3, 4, 5, 0⟩)] 7 1).2.2 =
      ([] : List AuditEntry) ∧
    resultStatus (create_record amenitiesShape [] []
      [("name", .str "Pool")] 7 1).1 = some 500 ∧
    (create_record amenitiesShape [] [] [("name", .str "Pool")] 7 1).2.1 =
      ([] : List ValMap) ∧
    (create_record amenitiesShape [] [] [("name", .str "Pool")] 7 1).2.2 =
      ([] : List AuditEntry) :=
  ⟨rfl, rfl, rfl, rfl, rfl, rfl⟩

/-- Claim C3: evaluation of update_record and delete_record at an id
naming no record.  The `raise HTTPException(404)` sits inside the
`try`, so the blanket `except Exception` (crud.py lines 96-98 and
137-139) catches it and re-raises a 500 whose detail wraps `str` of the
404 — the caller observes InternalError, not NotFound. -/
theorem update_delete_missing_id_raise_500_not_404 :
    (update_record rolesShape [] [] 1 [("name", .str "B")] 7).1 =
      .error (.http 500 ("Error updating record: " ++
        excMessage (.http 404 ("RolesDbModel" ++ " not found")))) ∧
    resultStatus (update_record rolesShape [] [] 1
      [("name", .str "B")] 7).1 = some 500 ∧
    (delete_record rolesShape [] [] 1 7).1 =
      .error (.http 500 ("Error deleting record: " ++
        excMessage (.http 404 ("RolesDbModel" ++ " not found")))) ∧
    resultStatus (delete_record rolesShape [] [] 1 7).1 = some 500 :=
  ⟨rfl, rfl, rfl, rfl⟩

/-- Claim C7: a credential whose expiry has passed resolves to
token_expired_exception even when its signature is valid and a subject
claim is present, whatever the user table holds; and that error is
distinguished from the plain credentials_exception. -/
theorem expired_token_fails_expired_not_unauthenticated :
    (∀ (users : List UserRow) (email : String),
      get_current_user_from_token ⟨true, true, some email⟩ users =
        .error token_expired_exception) ∧
    token_expired_exception ≠ credentials_exception :=
  ⟨fun _ _ => rfl, by decide⟩

/-- Claim C2: when a record with the given id exists and both the full
snapshot and the supplied fields serialize, update_record succeeds and
appends exactly one audit entry whose old_values is the serialized
full-column pre-update snapshot (its keys are exactly the shape's
columns) and whose new_values is exactly the serialized literal fields
mapping (its keys are exactly the supplied field names, not the full
post-update row). -/
theorem update_audit_old_full_new_delta (shape : Shape)
    (rows : List ValMap) (audits : List AuditEntry) (rid : Int)
    (data : ValMap) (uid : Nat) (r oldSer newSer : ValMap)
    (hfind : rows.find? (fun x => rowId x == rid) = some r)
    (hold : canonicalizeMap (snapshot shape r) = .ok oldSer)
    (hnew : canonicalizeMap data = .ok newSer) :
    (update_record shape rows audits rid data uid).1 =
      .ok (applyData shape r data) ∧
    (update_record shape rows audits rid data uid).2.2 =
      audits ++ [⟨shape.tableName, rid, uid, oldSer, newSer⟩] ∧
    mapKeys oldSer = shape.columns ∧
    mapKeys newSer = mapKeys data := by
  have hoj := canonicalizeMap_ok_firstNonJson _ _ hold
  have hnj := canonicalizeMap_ok_firstNonJson _ _ hnew
  have hok : mapKeys oldSer = shape.columns := by
    rw [canonicalizeMap_ok_keys _ _ hold, snapshot_keys]
  have hnk : mapKeys newSer = mapKeys data :=
    canonicalizeMap_ok_keys _ _ hnew
  refine ⟨?_, ?_, hok, hnk⟩ <;>
    simp [update_record, hfind, hold, hnew, add_audit_log, hoj, hnj]

/-- Witness for C2: the spec's P2 scenario — a roles row with
`name = "A"`, `description = "x"`, updated with `name = "B"` — yields
an audit entry whose old_values lists every column of the row and
whose new_values is only the delta. -/
theorem update_audit_old_full_new_delta_witness :
    (update_record rolesShape
      [[("id", .int 1), ("name", .str "A"), ("description", .str "x")]]
      [] 1 [("name", .str "B")] 7).2.2 =
    [] ++ [⟨"roles", 1, 7,
      [("id", .int 1), ("name", .str "A"), ("description", .str "x"),
       ("created_at", .null), ("updated_at", .null)],
      [("name", .str "B")]⟩] :=
  (update_audit_old_full_new_delta rolesShape
    [[("id", .int 1), ("name", .str "A"), ("description", .str "x")]]
    [] 1 [("name", .str "B")] 7
    [("id", .int 1), ("name", .str "A"), ("description", .str "x")]
    [("id", .int 1), ("name", .str "A"), ("description", .str "x"),
     ("created_at", .null), ("updated_at", .null)]
    [("name", .str "B")] rfl rfl rfl).2.1

/-- Claim C6: under a configured role table (get_role_ids resolves the
three well-known ids) a caller whose live role id is the endUser id —
distinct from the admin and superAdmin ids — is rejected with the 403
of super_admin_or_admin_required, while a caller whose live role id is
the admin id is admitted. -/
theorem role_gate_endUser_forbidden_admin_admitted
    (roles : List RoleRow) (users : List UserRow) (aid said eid : Nat)
    (hids : get_role_ids roles = .ok (aid, said, eid))
    (u1 u2 : UserRow)
    (hu1 : one_or_none (users.filter (fun u => u.id == u1.id)) =
      .ok (some u1))
    (hrole1 : u1.role_id = eid) (hne1 : eid ≠ aid) (hne2 : eid ≠ said)
    (hu2 : one_or_none (users.filter (fun u => u.id == u2.id)) =
      .ok (some u2))
    (hrole2 : u2.role_id = aid) :
    super_admin_or_admin_required roles users u1.id =
      .error (.http 403 "Access denied.") ∧
    super_admin_or_admin_required roles users u2.id = .ok u2.id := by
  constructor
  · simp [super_admin_or_admin_required, hids, hu1, hrole1,
      hne1, hne2, Except.bind]
  · simp [super_admin_or_admin_required, hids, hu2, hrole2, Except.bind]

/-- Witness for C6: three configured roles; user 7 has the endUser
role and is rejected, user 8 has the admin role and is admitted. -/
theorem role_gate_endUser_forbidden_admin_admitted_witness :
    super_admin_or_admin_required
      [⟨1, "admin"⟩, ⟨2, "superAdmin"⟩, ⟨3, "endUser"⟩]
      [⟨7, "end@x.com", 3⟩, ⟨8, "adm@x.com", 1⟩] 7 =
      .error (.http 403 "Access denied.") ∧
    super_admin_or_admin_required
      [⟨1, "admin"⟩, ⟨2, "superAdmin"⟩, ⟨3, "endUser"⟩]
      [⟨7, "end@x.com", 3⟩, ⟨8, "adm@x.com", 1⟩] 8 = .ok 8 :=
  role_gate_endUser_forbidden_admin_admitted
    [⟨1, "admin"⟩, ⟨2, "superAdmin"⟩, ⟨3, "endUser"⟩]
    [⟨7, "end@x.com", 3⟩, ⟨8, "adm@x.com", 1⟩] 1 2 3 rfl
    ⟨7, "end@x.com", 3⟩ ⟨8, "adm@x.com", 1⟩ rfl rfl
    (by decide) (by decide) rfl rfl

/-- Claim C8: when a well-known role record is missing from the role
table the Authorization Gate fails with a 500-status error and never
admits the caller.  get_role_ids raises its explicit HTTPException 500
for whichever of "admin"/"superAdmin"/"endUser" is absent;
super_admin_required with "superAdmin" absent raises an
AttributeError on `super_admin_role.id`, which the application's
generic exception handler maps to a 500 response;
super_admin_or_admin_required inherits get_role_ids' failure. -/
theorem missing_role_records_fail_closed_500
    (roles : List RoleRow) (users : List UserRow) (uid : Nat) :
    (roles.filter (fun r => r.name == "admin") = [] →
      get_role_ids roles =
        .error (.http 500 "Admin role not found in the database")) ∧
    (roles.filter (fun r => r.name == "superAdmin") = [] →
      ∃ e, get_role_ids roles = .error e ∧ toHttpStatus e = 500) ∧
    (roles.filter (fun r => r.name == "endUser") = [] →
      ∃ e, get_role_ids roles = .error e ∧ toHttpStatus e = 500) ∧
    (roles.filter (fun r => r.name == "superAdmin") = [] →
      ∃ e, super_admin_required roles users uid = .error e ∧
        toHttpStatus e = 500) ∧
    (roles.filter (fun r => r.name == "superAdmin") = [] →
      ∃ e, super_admin_or_admin_required roles users uid = .error e ∧
        toHttpStatus e = 500) := by
  have hsup : ∀ (h : roles.filter (fun r => r.name == "superAdmin") = []),
      ∃ e, get_role_ids roles = .error e ∧ toHttpStatus e = 500 := by
    intro h
    unfold get_role_ids
    rw [h]
    cases ha : one_or_none (roles.filter (fun r => r.name == "admin")) with
    | error e =>
      refine ⟨e, rfl, ?_⟩
      cases hadm : roles.filter (fun r => r.name == "admin") with
      | nil => rw [hadm] at ha; cases ha
      | cons x rest =>
        cases rest with
        | nil => rw [hadm] at ha; cases ha
        | cons y rest' =>
          rw [hadm] at ha
          simp only [one_or_none] at ha
          cases ha
          rfl
    | ok adminOpt =>
      cases adminOpt with
      | none => exact ⟨_, rfl, rfl⟩
      | some adminRole => exact ⟨_, rfl, rfl⟩
  refine ⟨?_, hsup, ?_, ?_, ?_⟩
  · intro h
    unfold get_role_ids
    rw [h]
    rfl
  · intro h
    unfold get_role_ids
    rw [h]
    cases ha : one_or_none (roles.filter (fun r => r.name == "admin")) with
    | error e =>
      refine ⟨e, rfl, ?_⟩
      cases hadm : roles.filter (fun r => r.name == "admin") with
      | nil => rw [hadm] at ha; cases ha
      | cons x rest =>
        cases rest with
        | nil => rw [hadm] at ha; cases ha
        | cons y rest' =>
          rw [hadm] at ha
          simp only [one_or_none] at ha
          cases ha
          rfl
    | ok adminOpt =>
      cases adminOpt with
      | none => exact ⟨_, rfl, rfl⟩
      | some adminRole =>
        cases hs : one_or_none (roles.filter (fun r => r.name == "superAdmin")) with
        | error e =>
          refine ⟨e, rfl, ?_⟩
          cases hsa : roles.filter (fun r => r.name == "superAdmin") with
          | nil => rw [hsa] at hs; cases hs
          | cons x rest =>
            cases rest with
            | nil => rw [hsa] at hs; cases hs
            | cons y rest' =>
              rw [hsa] at hs
              simp only [one_or_none] at hs
              cases hs
              rfl
        | ok superOpt =>
          cases superOpt with
          | none => exact ⟨_, rfl, rfl⟩
          | some superAdminRole => exact ⟨_, rfl, rfl⟩
  · intro h
    unfold super_admin_required
    rw [h]
    cases hu : one_or_none (users.filter (fun u => u.id == uid)) with
    | error e =>
      refine ⟨e, rfl, ?_⟩
      cases husr : users.filter (fun u => u.id == uid) with
      | nil => rw [husr] at hu; cases hu
      | cons x rest =>
        cases rest with
        | nil => rw [husr] at hu; cases hu
        | cons y rest' =>
          rw [husr] at hu
          simp only [one_or_none] at hu
          cases hu
          rfl
    | ok userOpt =>
      cases userOpt with
      | none => exact ⟨_, rfl, rfl⟩
      | some u => exact ⟨_, rfl, rfl⟩
  · intro h
    obtain ⟨e, he, hst⟩ := hsup h
    unfold super_admin_or_admin_required
    rw [he]
    exact ⟨e, rfl, hst⟩

/-- Witness for C8 at the empty role table: all three lookups fail
closed with a 500. -/
theorem missing_role_records_fail_closed_500_witness :
    get_role_ids [] =
      .error (.http 500 "Admin role not found in the database") ∧
    resultStatus (super_admin_required [] [] 0) = some 500 := by
  have h := missing_role_records_fail_closed_500 [] [] 0
  refine ⟨h.1 rfl, ?_⟩
  obtain ⟨e, he, hst⟩ := h.2.2.2.1 rfl
  rw [he]
  simp [resultStatus, hst]

theorem applyFilters_columns (shape : Shape) (rows : List ValMap)
    (filters : ValMap)
    (hcols : ∀ p ∈ filters, shape.columns.contains p.fst = true) :
    applyFilters shape rows filters = .ok (matchedRows rows filters) := by
  induction filters generalizing rows with
  | nil => simp [applyFilters, matchedRows]
  | cons p rest ih =>
    obtain ⟨k, v⟩ := p
    have h2 := hcols (k, v) (by simp)
    simp only at h2
    simp only [applyFilters, h2, if_true]
    rw [ih (rows.filter (fun r => rowGet r k == v))
      (fun q hq => hcols q (List.mem_cons_of_mem _ hq))]
    congr 1
    simp only [matchedRows, List.filter_filter]
    apply List.filter_congr
    intro r _
    simp [Bool.and_comm]

/-- Claim C4 counterexample: "users" is a Python attribute of
RolesDbModel (the relationship) but names no column, so the
`hasattr` guard of fetch_record admits it and the call does not fail
with the 400 InvalidFilter error — the failed SQLAlchemy comparison
surfaces as a 500 instead. -/
theorem fetch_record_relationship_filter_not_invalid_filter :
    fetch_record rolesShape [[("id", .int 1), ("name", .str "admin")]]
      [("users", .int 5)] =
      .error (.http 500 ("Error fetching record: " ++
        excMessage (.dbError
          ("Cannot compare a collection to an object or collection: " ++
            "users")))) ∧
    rolesShape.columns.contains "users" = false ∧
    resultStatus (fetch_record rolesShape
      [[("id", .int 1), ("name", .str "admin")]] [("users", .int 5)]) =
      some 500 :=
  ⟨rfl, rfl, rfl⟩

/-- Claim C4 (amended): a filter key naming no Python attribute of the
model fails with InvalidFilter (400); keys that all name columns are
applied as an AND-conjunction of equality filters with 404 on zero
matches, the unique row on exactly one, and 300 (AmbiguousMatch) on two
or more; a key naming a relationship attribute passes the hasattr
guard and the call fails with a 500 (the SQLAlchemy comparison raises)
instead of InvalidFilter; a key naming a plain method attribute passes
the guard, compares as the constant `False` and matches zero rows, so
with any remaining column filters the call fails with 404 NotFound —
in neither non-column case InvalidFilter. -/
theorem fetch_record_filter_semantics (shape : Shape)
    (rows : List ValMap) :
    (∀ k v rest, shape.pythonAttrs.contains k = false →
      fetch_record shape rows ((k, v) :: rest) =
        .error (.http 400 ("Invalid filter parameter: " ++ k))) ∧
    (∀ filters : ValMap,
      (∀ p ∈ filters, shape.pythonAttrs.contains p.fst = true) →
      (∀ p ∈ filters, shape.columns.contains p.fst = true) →
      ((matchedRows rows filters = [] →
        fetch_record shape rows filters =
          .error (.http 404 "Record not found")) ∧
       (∀ r, matchedRows rows filters = [r] →
        fetch_record shape rows filters = .ok r) ∧
       (∀ r1 r2 rs, matchedRows rows filters = r1 :: r2 :: rs →
        fetch_record shape rows filters =
          .error (.http 300 "Multiple records found")))) ∧
    (∀ k v rest, shape.relationships.contains k = true →
      shape.columns.contains k = false →
      fetch_record shape rows ((k, v) :: rest) =
        .error (.http 500 ("Error fetching record: " ++
          excMessage (.dbError
            ("Cannot compare a collection to an object or collection: " ++
              k))))) ∧
    (∀ k v rest, shape.methods.contains k = true →
      shape.columns.contains k = false →
      shape.relationships.contains k = false →
      (∀ p ∈ rest, shape.columns.contains p.fst = true) →
      fetch_record shape rows ((k, v) :: rest) =
        .error (.http 404 "Record not found")) := by
  refine ⟨?_, ?_, ?_, ?_⟩
  · intro k v rest hk
    have hk' : ¬ (k ∈ shape.pythonAttrs) := by simpa using hk
    simp only [Shape.pythonAttrs, List.mem_append, not_or] at hk'
    simp [fetch_record, applyFilters, hk'.1.1, hk'.1.2, hk'.2]
  · intro filters hattr hcols
    have happ := applyFilters_columns shape rows filters hcols
    refine ⟨?_, ?_, ?_⟩
    · intro hm
      rw [fetch_record, happ, hm]
    · intro r hm
      rw [fetch_record, happ, hm]
    · intro r1 r2 rs hm
      rw [fetch_record, happ, hm]
  · intro k v rest hk hc
    have hk' : k ∈ shape.relationships := by simpa using hk
    have hc' : ¬ (k ∈ shape.columns) := by simpa using hc
    simp [fetch_record, applyFilters, hk', hc', excMessage]
  · intro k v rest hm hc hr hrest
    have hm' : k ∈ shape.methods := by simpa using hm
    have hc' : ¬ (k ∈ shape.columns) := by simpa using hc
    have hr' : ¬ (k ∈ shape.relationships) := by simpa using hr
    have happ := applyFilters_columns shape
      (rows.filter (fun _ => false)) rest hrest
    have hAF : applyFilters shape rows ((k, v) :: rest) =
        .ok (matchedRows (rows.filter (fun _ => false)) rest) := by
      simp only [applyFilters]
      rw [if_neg (by simpa using hc'), if_neg (by simpa using hr'),
        if_pos (by simpa using hm')]
      exact happ
    have hnil : matchedRows (rows.filter (fun _ => false)) rest = [] := by
      simp [matchedRows]
    rw [fetch_record, hAF, hnil]

/-- Witness for C4 (amended) on concrete tables: an unknown key gives
400, zero matches give 404, a unique match returns the row, two
matches give 300, and a method key ("to_dict" on amenities) gives 404
rather than InvalidFilter. -/
theorem fetch_record_filter_semantics_witness :
    fetch_record rolesShape
      [[("id", .int 1), ("name", .str "admin")],
       [("id", .int 2), ("name", .str "endUser")]]
      [("bogus", .int 0)] =
      .error (.http 400 ("Invalid filter parameter: " ++ "bogus")) ∧
    fetch_record rolesShape
      [[("id", .int 1), ("name", .str "admin")],
       [("id", .int 2), ("name", .str "endUser")]]
      [("name", .str "zz")] = .error (.http 404 "Record not found") ∧
    fetch_record rolesShape
      [[("id", .int 1), ("name", .str "admin")],
       [("id", .int 2), ("name", .str "endUser")]]
      [("name", .str "admin")] = .ok [("id", .int 1), ("name", .str "admin")] ∧
    fetch_record rolesShape
      [[("id", .int 1), ("name", .str "admin")],
       [("id", .int 2), ("name", .str "endUser")]]
      ([] : ValMap) = .error (.http 300 "Multiple records found") ∧
    fetch_record amenitiesShape [[("id", .int 1), ("name", .str "Pool")]]
      [("to_dict", .int 0)] = .error (.http 404 "Record not found") := by
  have h := fetch_record_filter_semantics rolesShape
    [[("id", .int 1), ("name", .str "admin")],
     [("id", .int 2), ("name", .str "endUser")]]
  have ha := fetch_record_filter_semantics amenitiesShape
    [[("id", .int 1), ("name", .str "Pool")]]
  refine ⟨h.1 "bogus" (.int 0) [] (by decide), ?_, ?_, ?_, ?_⟩
  · exact (h.2.1 [("name", .str "zz")] (by decide) (by decide)).1 (by decide)
  · exact (h.2.1 [("name", .str "admin")] (by decide) (by decide)).2.1 _
      (by decide)
  · exact (h.2.1 [] (by decide) (by decide)).2.2
      [("id", .int 1), ("name", .str "admin")]
      [("id", .int 2), ("name", .str "endUser")] [] (by decide)
  · exact ha.2.2.2 "to_dict" (.int 0) [] (by decide) (by decide)
      (by decide) (by simp)

theorem mapJsonOk_firstNonJson (m : ValMap) (h : mapJsonOk m = true) :
    firstNonJson m = none := by
  induction m with
  | nil => rfl
  | cons p rest ih =>
    obtain ⟨k, v⟩ := p
    simp only [mapJsonOk, List.all_cons, Bool.and_eq_true] at h
    simp [firstNonJson, h.1, ih (by simpa [mapJsonOk] using h.2)]

/-- Claim C5 counterexample: create_record hands the raw `data` to
add_audit_log without passing it through the Serialization Adapter
(crud.py line 39), so a temporal value in the fields payload makes the
audit-side `json.dumps` raise and the create fail with a 500 — whereas
the adapter itself canonicalizes the same payload to an ISO-8601
string. -/
theorem create_temporal_fields_not_canonicalized :
    resultStatus (create_record rolesShape [] []
      [("created_at", .temporal ⟨2024, 5, 17, 10, 30, 0, 500000⟩)]
      7 1).1 = some 500 ∧
    (create_record rolesShape [] []
      [("created_at", .temporal ⟨2024, 5, 17, 10, 30, 0, 500000⟩)]
      7 1).2.2 = ([] : List AuditEntry) ∧
    canonicalizeMap
      [("created_at", .temporal ⟨2024, 5, 17, 10, 30, 0, 500000⟩)] =
      .ok [("created_at", .str "2024-05-17T10:30:00.500000")] :=
  ⟨rfl, rfl, by decide⟩

/-- Claim C5 (amended): update and delete pass old_values (the full
snapshot) and the fields payload through the Serialization Adapter
before embedding them in the audit entry; create embeds the raw fields
mapping without the adapter (its old_values being the empty mapping) —
indistinguishable from the canonical form when the fields are all JSON
scalars, but a failure (500, no audit entry) when a temporal value is
present.  The create clauses assume the insert is constraint-clean, so
the commit itself succeeds. -/
theorem audit_serialization_asymmetric_by_operation (shape : Shape)
    (rows : List ValMap) (audits : List AuditEntry) :
    (∀ (rid : Int) (data : ValMap) (uid : Nat) (r oldSer newSer : ValMap),
      rows.find? (fun x => rowId x == rid) = some r →
      canonicalizeMap (snapshot shape r) = .ok oldSer →
      canonicalizeMap data = .ok newSer →
      (update_record shape rows audits rid data uid).2.2 =
        audits ++ [⟨shape.tableName, rid, uid, oldSer, newSer⟩]) ∧
    (∀ (rid : Int) (uid : Nat) (r oldSer : ValMap),
      rows.find? (fun x => rowId x == rid) = some r →
      canonicalizeMap (snapshot shape r) = .ok oldSer →
      (delete_record shape rows audits rid uid).2.2 =
        audits ++ [⟨shape.tableName, rid, uid, oldSer, []⟩]) ∧
    (∀ (data : ValMap) (uid newId : Nat),
      integrityViolation shape rows (("id", .int newId) :: data) = none →
      mapJsonOk data = true →
      (create_record shape rows audits data uid newId).2.2 =
        audits ++ [⟨shape.tableName, newId, uid, [], data⟩]) ∧
    (∀ (data : ValMap) (uid newId : Nat) (d : Datetime),
      integrityViolation shape rows (("id", .int newId) :: data) = none →
      firstNonJson data = some (.temporal d) →
      resultStatus (create_record shape rows audits data uid newId).1 =
        some 500 ∧
      (create_record shape rows audits data uid newId).2.2 = audits) := by
  refine ⟨?_, ?_, ?_, ?_⟩
  · intro rid data uid r oldSer newSer hfind hold hnew
    exact (update_audit_old_full_new_delta shape rows audits rid data uid
      r oldSer newSer hfind hold hnew).2.1
  · intro rid uid r oldSer hfind hold
    have hoj := canonicalizeMap_ok_firstNonJson _ _ hold
    simp [delete_record, hfind, hold, add_audit_log, hoj, firstNonJson]
  · intro data uid newId hclean hdata
    simp [create_record, hclean, add_audit_log, firstNonJson,
      mapJsonOk_firstNonJson data hdata]
  · intro data uid newId d hclean hdata
    simp [create_record, hclean, add_audit_log, firstNonJson, hdata,
      resultStatus, toHttpStatus]

/-- Witness for C5 (amended) on concrete inputs: a delete serializes
the temporal snapshot column to its ISO string, a JSON-only create
embeds the raw fields, and a temporal-bearing create fails with no
audit entry. -/
theorem audit_serialization_asymmetric_by_operation_witness :
    (delete_record rolesShape
      [[("id", .int 1), ("name", .str "old"),
        ("created_at", .temporal ⟨2023, 12, 31, 23, 59, 59, 0⟩)]]
      [] 1 7).2.2 =
      [] ++ [⟨"roles", 1, 7,
        [("id", .int 1), ("name", .str "old"),
         ("description", .null),
         ("created_at", .str "2023-12-31T23:59:59"),
         ("updated_at", .null)], []⟩] ∧
    (create_record rolesShape [] [] [("name", .str "Pool")] 7 1).2.2 =
      [] ++ [⟨"roles", 1, 7, [], [("name", .str "Pool")]⟩] ∧
    resultStatus (create_record rolesShape [] []
      [("x", .temporal ⟨2024, 1, 1, 0, 0, 0, 0⟩)] 7 1).1 = some 500 := by
  have h := audit_serialization_asymmetric_by_operation rolesShape
    [[("id", .int 1), ("name", .str "old"),
      ("created_at", .temporal ⟨2023, 12, 31, 23, 59, 59, 0⟩)]] []
  have h0 := audit_serialization_asymmetric_by_operation rolesShape [] []
  refine ⟨?_, h0.2.2.1 [("name", .str "Pool")] 7 1 (by decide) (by decide),
    ?_⟩
  · exact h.2.1 1 7 _ _ rfl (by decide)
  · exact (h0.2.2.2 [("x", .temporal ⟨2024, 1, 1, 0, 0, 0, 0⟩)] 7 1
      ⟨2024, 1, 1, 0, 0, 0, 0⟩ rfl rfl).1

theorem one_or_none_error {α : Type} (l : List α) (e : Exc)
    (h : one_or_none l = .error e) :
    e = .dbError "Multiple rows were found when one or none was required" := by
  match l with
  | [] => cases h
  | [x] => cases h
  | x :: y :: rest =>
    simp only [one_or_none] at h
    cases h
    rfl

/-- Claim C10 counterexample: with a configured role table and an
authenticated endUser caller, the is_super_admin guard admits the
request (it returns `ok false`, raising nothing), yet role deletion
does not proceed — the handler's call to delete_record omits the
required current_user_id argument, so the request fails with a
TypeError and the role table is unchanged.  No authenticated user can
actually delete a role. -/
theorem delete_role_guard_admits_but_role_not_deleted :
    is_super_admin [⟨1, "admin"⟩, ⟨2, "superAdmin"⟩, ⟨3, "endUser"⟩]
      [⟨7, "end@x.com", 3⟩] 7 = .ok false ∧
    (delete_role [⟨1, "admin"⟩, ⟨2, "superAdmin"⟩, ⟨3, "endUser"⟩]
      [⟨7, "end@x.com", 3⟩] 7 1).1 =
      .error (.typeError
        "delete_record() missing 1 required positional argument: current_user_id") ∧
    (delete_role [⟨1, "admin"⟩, ⟨2, "superAdmin"⟩, ⟨3, "endUser"⟩]
      [⟨7, "end@x.com", 3⟩] 7 1).2 =
      [⟨1, "admin"⟩, ⟨2, "superAdmin"⟩, ⟨3, "endUser"⟩] :=
  ⟨rfl, rfl, rfl⟩

/-- Claim C10 (amended): the is_super_admin guard on role deletion
returns a boolean and never raises Forbidden (403), so it admits every
authenticated caller regardless of role; but whenever the guard admits
and the target role exists, the handler's delete_record call — which
omits the required current_user_id argument — fails with a TypeError
and leaves the role table unchanged, so no caller ever deletes a
role. -/
theorem delete_role_guard_never_forbids_but_call_always_fails
    (roles : List RoleRow) (users : List UserRow)
    (caller_id role_id : Nat) :
    (∀ s : String,
      is_super_admin roles users caller_id ≠ .error (.http 403 s)) ∧
    (∀ (b : Bool) (rr : RoleRow),
      is_super_admin roles users caller_id = .ok b →
      one_or_none (roles.filter (fun r => r.id == role_id)) =
        .ok (some rr) →
      (delete_role roles users caller_id role_id).1 =
        .error (.typeError
          "delete_record() missing 1 required positional argument: current_user_id") ∧
      (delete_role roles users caller_id role_id).2 = roles) := by
  constructor
  · intro s
    unfold is_super_admin
    cases h1 : one_or_none (roles.filter (fun r => r.name == "superAdmin")) with
    | error e =>
      have := one_or_none_error _ _ h1
      subst this
      intro hc
      cases hc
    | ok superOpt =>
      cases h2 : one_or_none (users.filter (fun u => u.id == caller_id)) with
      | error e =>
        have := one_or_none_error _ _ h2
        subst this
        intro hc
        cases hc
      | ok userOpt =>
        cases userOpt with
        | none => intro hc; cases hc
        | some u =>
          cases superOpt with
          | none => intro hc; cases hc
          | some sa =>
            by_cases hr : u.role_id = sa.id <;> simp [hr]
  · intro b rr hguard hrole
    unfold delete_role
    rw [hguard, hrole]
    exact ⟨rfl, rfl⟩

/-- Witness for C10 (amended): even a superAdmin caller (guard returns
`ok true`) cannot delete an existing role — the call fails with the
TypeError and the table is unchanged. -/
theorem delete_role_guard_never_forbids_but_call_always_fails_witness :
    (delete_role [⟨1, "admin"⟩, ⟨2, "superAdmin"⟩, ⟨3, "endUser"⟩]
      [⟨9, "sa@x.com", 2⟩] 9 3).1 =
      .error (.typeError
        "delete_record() missing 1 required positional argument: current_user_id") ∧
    (delete_role [⟨1, "admin"⟩, ⟨2, "superAdmin"⟩, ⟨3, "endUser"⟩]
      [⟨9, "sa@x.com", 2⟩] 9 3).2 =
      [⟨1, "admin"⟩, ⟨2, "superAdmin"⟩, ⟨3, "endUser"⟩] :=
  (delete_role_guard_never_forbids_but_call_always_fails
    [⟨1, "admin"⟩, ⟨2, "superAdmin"⟩, ⟨3, "endUser"⟩]
    [⟨9, "sa@x.com", 2⟩] 9 3).2 true ⟨3, "endUser"⟩ rfl rfl
